import Mathlib

/-!
Verification of the automate-sc snapchat-automation worker.

The development shallowly embeds the pure decision logic of the repository:

* `src/core/snapchat.ts` — the conversation-list scanner (`getConversations`),
  message scanner (`getMessages`) and the conversation filter
  (`filterConversations`), modelled as pure functions over snapshots of the
  DOM facts those functions read (inner text, badge descendants, computed
  font weight, bounding-rect data).
* `src/worker.ts` — the schedule gate (`isWithinSchedule`), the rate-limit
  gate (`canReply`), the per-conversation handler (`handleConversation`) and
  the poll-loop ignore filter, modelled with explicit state passing; the
  effectful collaborators (browser, AI service) are oracles recorded in an
  environment record.
* `src/ai/client.ts` / `src/ai/prompts.ts` — the chat-context builder of
  `getResponse`.

Timestamps are in milliseconds (JS `Date.now()`), as in the source.
-/

namespace AutomateSC

/-! ## JavaScript string primitives -/

/-- Substring search on character lists. -/
def listInfix (needle : List Char) : List Char → Bool
  | [] => needle.isEmpty
  | c :: rest => List.isPrefixOf needle (c :: rest) || listInfix needle rest

/-- JS `haystack.includes(needle)`: substring containment. -/
def strContains (haystack needle : String) : Bool :=
  listInfix needle.toList haystack.toList

/-- Characters matched by `\s` in the JS regexes used by the scanner, and
stripped by JS `trim()` (the source texts only ever contain ASCII
whitespace). -/
def isJsWs (c : Char) : Bool :=
  c = ' ' || c = '\t' || c = '\n' || c = '\r' || c = '\x0b' || c = '\x0c'

/-- JS `s.toLowerCase()` (ASCII; the markers compared against are ASCII). -/
def jsToLower (s : String) : String :=
  String.mk (s.toList.map Char.toLower)

/-- JS `s.trim()`: strip leading and trailing whitespace. -/
def jsTrim (s : String) : String :=
  String.mk (((s.toList.dropWhile isJsWs).reverse.dropWhile isJsWs).reverse)

/-- JS `s.split('\n')` (auxiliary loop over characters). -/
def splitNlAux : List Char → List Char → List String
  | acc, [] => [String.mk acc.reverse]
  | acc, c :: rest =>
    if c = '\n' then String.mk acc.reverse :: splitNlAux [] rest
    else splitNlAux (c :: acc) rest

/-- JS `s.split('\n')`. -/
def splitNl (s : String) : List String :=
  splitNlAux [] s.toList

/-- Tail of the regex `received\s*·?\s*\d+[mhs]` after the literal
`received` has been consumed.  The character classes `\s`, `·`, `\d` and
`[mhs]` are pairwise disjoint, so greedy matching is equivalent to the
backtracking regex semantics. -/
def matchTimeTail (cs : List Char) : Bool :=
  let cs1 := cs.dropWhile isJsWs
  let cs2 := match cs1 with
    | '·' :: rest => rest
    | _ => cs1
  let cs3 := cs2.dropWhile isJsWs
  let digits := cs3.takeWhile Char.isDigit
  let rest := cs3.dropWhile Char.isDigit
  !digits.isEmpty &&
    match rest with
    | c :: _ => c = 'm' || c = 'h' || c = 's'
    | [] => false

/-- Search for a match of `received\s*·?\s*\d+[mhs]` starting at any
position of the (already lowercased) character list. -/
def receivedTimeSearch : List Char → Bool
  | [] => false
  | c :: rest =>
    (List.isPrefixOf "received".toList (c :: rest) && matchTimeTail (List.drop 8 (c :: rest)))
      || receivedTimeSearch rest

/-- JS `/received\s*·?\s*\d+[mhs]/i.test(text)` (snapchat.ts line 101);
the `/i` flag is modelled by lowercasing the text first, which is
equivalent for this ASCII-literal pattern. -/
def receivedTimeTest (text : String) : Bool :=
  receivedTimeSearch (jsToLower text).toList

/-! ## Conversation-list scanner (`getConversations`, snapchat.ts 55–151) -/

/-- `Conversation` record of snapchat.ts (lines 26–32). -/
structure Conversation where
  name : String
  preview : String
  hasUnread : Bool
  isNewChat : Bool
  isNewSnap : Bool
deriving DecidableEq, Repr

/-- `Message` record of snapchat.ts (lines 34–37). -/
structure Message where
  text : String
  isSent : Bool
deriving DecidableEq, Repr

/-- Snapshot of the DOM facts `getConversations` reads from one candidate
list item: its `innerText`, whether a
`[class*="notification"], [class*="badge"], [class*="dot"], [class*="unread"]`
descendant exists, and the computed font weight of the first `span`/`p`
descendant (`none` when there is no such descendant or the weight does not
parse to a number, in which case the bold check cannot fire). -/
structure ScanItem where
  innerText : String
  hasNotificationEl : Bool
  firstSpanWeight : Option Nat
deriving DecidableEq, Repr

/-- The explicit "already handled" test of snapchat.ts line 86:
`hasDelivered || hasSent || hasOpened`, where
`hasDelivered = textLower.includes('delivered')`,
`hasSent = textLower.includes('sent') && !textLower.includes('received')`,
`hasOpened = textLower.includes('opened')` (lines 78–80). -/
def hasHandledMarker (text : String) : Bool :=
  let textLower := jsToLower text
  strContains textLower "delivered"
    || (strContains textLower "sent" && !strContains textLower "received")
    || strContains textLower "opened"

/-- Text, name and preview extraction with the guards of snapchat.ts
lines 65–73: returns `none` exactly when the source executes `continue`
before classification; otherwise the `(name, preview)` pair. -/
def parseItem (seen : List String) (item : ScanItem) : Option (String × String) :=
  let text := jsTrim item.innerText
  if text = "" || text.length < 2 || text.length > 200 then none
  else
    let lines := (splitNl text).filter (fun l => jsTrim l ≠ "")
    match lines.head? with
    | none => none
    | some l0 =>
      let name := jsTrim l0
      let preview := (jsTrim (String.intercalate " " (lines.drop 1))).take 100
      if name = "" || name.length < 2 || seen.contains name then none
      else some (name, preview)

/-- Read/unread classification of one surviving list item
(snapchat.ts lines 75–146). -/
def classifyItem (item : ScanItem) (name preview : String) : Conversation :=
  let text := jsTrim item.innerText
  let textLower := jsToLower text
  let hasSent := strContains textLower "sent" && !strContains textLower "received"
  let hasOpened := strContains textLower "opened"
  let hasDelivered := strContains textLower "delivered"
  let hasReceived := strContains textLower "received"
  let hasNewChat := name = "New Chat" || strContains textLower "new chat"
  let hasNewSnap := strContains textLower "new snap" || strContains textLower "new message"
  if hasHandledMarker text then
    { name := name, preview := preview, hasUnread := false,
      isNewChat := false, isNewSnap := false }
  else
    let hasUnread :=
      receivedTimeTest text || hasReceived || hasNewChat || hasNewSnap
        || item.hasNotificationEl
    let hasUnread :=
      if !hasUnread && !hasDelivered && !hasSent && !hasOpened && !hasReceived then
        match item.firstSpanWeight with
        | some w => decide (600 ≤ w)
        | none => false
      else hasUnread
    let isNewChat := hasNewChat
    { name := name, preview := preview,
      hasUnread := hasUnread || isNewChat || hasNewSnap,
      isNewChat := isNewChat, isNewSnap := hasNewSnap }

/-- One iteration of the `for (const item of containers)` loop of
`getConversations`: `none` when the item is skipped, otherwise the pushed
conversation (whose name is then added to `seen`). -/
def scanConversationItem (seen : List String) (item : ScanItem) : Option Conversation :=
  (parseItem seen item).map (fun np => classifyItem item np.1 np.2)

/-- The whole scan loop of `getConversations`, threading the `seen` set. -/
def getConversationsScan : List String → List ScanItem → List Conversation
  | _, [] => []
  | seen, item :: rest =>
    match scanConversationItem seen item with
    | none => getConversationsScan seen rest
    | some conv => conv :: getConversationsScan (conv.name :: seen) rest

/-- `getConversations` over a snapshot of the candidate containers. -/
def getConversations (items : List ScanItem) : List Conversation :=
  getConversationsScan [] items

/-! ## Schedule gate (`isWithinSchedule`, worker.ts 104–120) -/

/-- The schedule-relevant fields of `runtimeConfig` (worker.ts 50–54). -/
structure ScheduleConfig where
  scheduleEnabled : Bool
  scheduleStart : Int
  scheduleEnd : Int
  skipWeekends : Bool
deriving DecidableEq, Repr

/-- `isWithinSchedule` with the wall clock passed explicitly:
`hour = now.getHours()` (0–23) and `day = now.getDay()`
(0 = Sunday, 6 = Saturday). -/
def isWithinSchedule (cfg : ScheduleConfig) (hour day : Int) : Bool :=
  if !cfg.scheduleEnabled then true
  else if cfg.skipWeekends && (day = 0 || day = 6) then false
  else if cfg.scheduleStart ≤ cfg.scheduleEnd then
    hour ≥ cfg.scheduleStart && hour < cfg.scheduleEnd
  else
    hour ≥ cfg.scheduleStart || hour < cfg.scheduleEnd

/-! ## Rate-limit gate (`canReply`, worker.ts 123–130) -/

/-- The mutable rate state of the worker (worker.ts 63–64):
`repliesThisHour` and `lastHourReset` (a `Date.now()` millisecond stamp). -/
structure RateState where
  repliesThisHour : Nat
  lastHourReset : Int
deriving DecidableEq, Repr

/-- `canReply` with its state mutation made explicit: returns the gate
verdict together with the (possibly reset) state.  `now` is the
`Date.now()` value at the call, in milliseconds; 3600000 ms = 3600 s. -/
def canReplyStep (maxRepliesPerHour : Nat) (st : RateState) (now : Int) :
    Bool × RateState :=
  let st1 := if now - st.lastHourReset > 3600000 then RateState.mk 0 now else st
  (decide (st1.repliesThisHour < maxRepliesPerHour), st1)

/-! ## Message scanner (`getMessages`, snapchat.ts 239–295) -/

/-- `SYSTEM_MESSAGES` denylist of snapchat.ts (lines 9–24). -/
def SYSTEM_MESSAGES : List String :=
  ["type a message", "send a chat", "send a snap", "click the camera",
   "tap to chat", "delivered", "opened", "received", "screenshot",
   "replayed", "new chat", "chat settings", "view profile", "say hi"]

/-- JS `/^\d+[mhs]$/.test(text)` (snapchat.ts line 265); the pattern is
case-sensitive, so it is applied to the raw text. -/
def isRelTimestamp (text : String) : Bool :=
  let cs := text.toList
  let digits := cs.takeWhile Char.isDigit
  !digits.isEmpty &&
    match cs.dropWhile Char.isDigit with
    | [c] => c = 'm' || c = 'h' || c = 's'
    | _ => false

/-- JS `/^\d{1,2}:\d{2}\s*(am|pm)?$/i.test(text)` (snapchat.ts line 267);
the `/i` flag is modelled by lowercasing first. -/
def isClockTimestamp (text : String) : Bool :=
  let cs := (jsToLower text).toList
  let hh := cs.takeWhile Char.isDigit
  (1 ≤ hh.length && hh.length ≤ 2) &&
    match cs.dropWhile Char.isDigit with
    | ':' :: rest =>
      (match rest with
       | m1 :: m2 :: rest2 =>
         m1.isDigit && m2.isDigit &&
           (match rest2.dropWhile isJsWs with
            | [] => true
            | ['a', 'm'] => true
            | ['p', 'm'] => true
            | _ => false)
       | _ => false)
    | _ => false

/-- Snapshot of the DOM facts `getMessages` reads from one candidate node:
its `innerText`, its bounding-rect top, its parent's bounding-rect left
(`none` when the node has no parent element), and the concatenation
`el.className + ' ' + (parent?.className || '')`. -/
structure MsgNode where
  innerText : String
  rectTop : Int
  parentLeft : Option Int
  className : String
deriving DecidableEq, Repr

/-- The survival guards of the `getMessages` scan loop (snapchat.ts
lines 256–271): text non-empty and at most 500 chars, no system-message
substring, not timestamp-shaped, and not within the top 100px. -/
def msgNodeKeep (sysMessages : List String) (n : MsgNode) : Bool :=
  let text := jsTrim n.innerText
  let textLower := jsToLower text
  !(text = "") && !(text.length < 1) && !(text.length > 500)
    && !(sysMessages.any (fun sys => strContains textLower sys))
    && !(isRelTimestamp text)
    && !(textLower = "just now")
    && !(isClockTimestamp text)
    && !(n.rectTop < 100)

/-- Sender attribution of one surviving node (snapchat.ts lines 277–290).
`winWidth` is `window.innerWidth`; `2 * left > winWidth` encodes the exact
real comparison `left > winWidth / 2`. -/
def mkScannedMessage (winWidth : Int) (n : MsgNode) : Message :=
  let isRightAligned :=
    match n.parentLeft with
    | some left => decide (2 * left > winWidth)
    | none => false
  let cls := jsToLower n.className
  { text := jsTrim n.innerText,
    isSent := isRightAligned || strContains cls "sent" || strContains cls "outgoing"
      || strContains cls "self" || strContains cls "right" || strContains cls "own" }

/-- The scan loop of `getMessages`, threading the `seen` dedup set. -/
def getMessagesScan (sysMessages : List String) (winWidth : Int) :
    List String → List MsgNode → List Message
  | _, [] => []
  | seen, n :: rest =>
    let text := jsTrim n.innerText
    if msgNodeKeep sysMessages n && !seen.contains text then
      mkScannedMessage winWidth n ::
        getMessagesScan sysMessages winWidth (text :: seen) rest
    else
      getMessagesScan sysMessages winWidth seen rest

/-- JS `array.slice(-k)`: the last `k` elements (all of them when the
array is shorter). -/
def lastN (k : Nat) (l : List α) : List α :=
  l.drop (l.length - k)

/-- `getMessages` over a snapshot of the candidate nodes of the open
conversation's main content region (an empty node list models the
`!mainArea` early return). -/
def getMessages (winWidth : Int) (nodes : List MsgNode) : List Message :=
  lastN 10 (getMessagesScan SYSTEM_MESSAGES winWidth [] nodes)

/-! ## Conversation filtering (`filterConversations`, snapchat.ts 415–439,
and the poll-loop ignore filter, worker.ts 296–307) -/

/-- `UI_ELEMENTS` denylist of snapchat.ts (lines 394–413). -/
def UI_ELEMENTS : List String :=
  ["try the new snapchat", "try out lenses", "watch snapchat stories",
   "watch snapchat spotlight", "snapchat+", "stories", "spotlight", "lenses",
   "filters", "chat", "camera", "map", "discover", "search", "settings",
   "profile", "add friends", "my story"]

/-- `filterConversations`; the source reads the ignore list from the
module-level `config.ignoreList`, passed here as a parameter. -/
def filterConversations (ignoreList : List String)
    (conversations : List Conversation) : List Conversation :=
  conversations.filter (fun c =>
    let nameLower := jsToLower c.name
    let isUIElement := UI_ELEMENTS.any (fun ui => strContains nameLower ui)
    if isUIElement then false
    else if c.name.length < 3 then false
    else !(ignoreList.any (fun ignore => strContains nameLower (jsToLower ignore))))

/-- Default ignore list, identical in `config.ignoreList`
(config/index.ts line 41) and `runtimeConfig.ignoreList`
(worker.ts line 57). -/
def defaultIgnoreList : List String :=
  ["My AI", "Team Snapchat"]

/-- The session-specific ignore filter applied inside `pollLoop`
(worker.ts lines 299–305). -/
def pollFilterIgnore (ignoreList : List String)
    (conversations : List Conversation) : List Conversation :=
  conversations.filter (fun c =>
    let nameLower := jsToLower c.name
    !(ignoreList.any (fun ignore => strContains nameLower (jsToLower ignore))))

/-- The unread-processing set of one poll iteration (worker.ts line 307):
the ignore-filtered conversations that are flagged unread. -/
def pollUnread (ignoreList : List String)
    (conversations : List Conversation) : List Conversation :=
  (pollFilterIgnore ignoreList conversations).filter (fun c => c.hasUnread)

/-! ## Reply generator context (`getResponse`, ai/client.ts 84–127, and
`MAX_CONTEXT_MESSAGES`, ai/prompts.ts line 16) -/

inductive Role where
  | system
  | user
  | assistant
deriving DecidableEq, Repr

/-- `ChatMessage` record of ai/client.ts (lines 6–9). -/
structure ChatMessage where
  role : Role
  content : String
deriving DecidableEq, Repr

def MAX_CONTEXT_MESSAGES : Nat := 10

/-- The role mapping of ai/client.ts lines 95–98:
`isSent → assistant`, `!isSent → user`. -/
def toChatMessage (m : Message) : ChatMessage :=
  { role := if m.isSent then Role.assistant else Role.user, content := m.text }

/-- The role-tagged list `getResponse` passes to the completion call
(ai/client.ts lines 93–104): the system-role personality entry, then
`conversationHistory.slice(-MAX_CONTEXT_MESSAGES)` mapped through the role
mapping, then the user-role entry for `userMessage`. -/
def buildChatMessages (personality userMessage : String)
    (conversationHistory : List Message) : List ChatMessage :=
  let history := (lastN MAX_CONTEXT_MESSAGES conversationHistory).map toChatMessage
  { role := Role.system, content := personality } ::
    (history ++ [{ role := Role.user, content := userMessage }])

/-! ## Per-conversation handler (`handleConversation`, worker.ts 189–275) -/

/-- The stats counters the handler mutates (worker.ts 68–75; the bounded
response-time sample list and the activity timestamps are orthogonal to
the verified claims and omitted). -/
structure WStats where
  messagesReceived : Nat
  messagesSent : Nat
  conversationsHandled : Nat
deriving DecidableEq, Repr

/-- The worker state `handleConversation` reads and writes
(worker.ts 63–65 and 68): the dedup set (modelled as a list, membership
being what the `Set` provides), the rate state, and the stats. -/
structure WorkerState where
  processedMessages : List String
  repliesThisHour : Nat
  lastHourReset : Int
  stats : WStats
deriving DecidableEq, Repr

/-- Oracle record for one `handleConversation` call: the outcomes of the
effectful collaborator calls, in the order the handler would make them.
`autoReplyReady` is `defaultConfig.autoReply && isAIReady()`;
`response` is what `getResponse` would return; `sendOk` is what
`sendMessage` would return; `now` is `Date.now()` at the `canReply` call. -/
structure ConvEnv where
  opened : Bool
  messages : List Message
  autoReplyReady : Bool
  response : Option String
  sendOk : Bool
  now : Int
deriving DecidableEq, Repr

/-- Which collaborator calls one `handleConversation` step performed. -/
structure ConvEvents where
  readMessages : Bool
  generatorCalled : Bool
  senderCalled : Bool
  replySent : Bool
deriving DecidableEq, Repr

/-- The dedup key `` `${conversation.name}:${lastReceived.text}` ``
(worker.ts line 226). -/
def messageKey (name text : String) : String :=
  name ++ ":" ++ text

/-- `handleConversation` (worker.ts 189–275) as a state transformer,
also returning which collaborator calls it performed.  Every `return`
path of the source ends with `exitConversation` and hands control back to
the poll loop; in this total function that is the result value itself. -/
def handleConversation (maxRepliesPerHour : Nat) (name : String)
    (env : ConvEnv) (st : WorkerState) : WorkerState × ConvEvents :=
  let st := { st with stats :=
    { st.stats with messagesReceived := st.stats.messagesReceived + 1 } }
  if !env.opened then
    (st, ⟨false, false, false, false⟩)
  else
    let messages := env.messages
    if messages.isEmpty then
      (st, ⟨true, false, false, false⟩)
    else
      let receivedMessages := messages.filter (fun m => !m.isSent)
      match receivedMessages.getLast? with
      | none => (st, ⟨true, false, false, false⟩)
      | some lastReceived =>
        let key := messageKey name lastReceived.text
        if st.processedMessages.contains key then
          (st, ⟨true, false, false, false⟩)
        else
          let checked :=
            canReplyStep maxRepliesPerHour ⟨st.repliesThisHour, st.lastHourReset⟩ env.now
          let st := { st with repliesThisHour := checked.2.repliesThisHour,
                              lastHourReset := checked.2.lastHourReset }
          if !checked.1 then
            ({ st with processedMessages := key :: st.processedMessages },
              ⟨true, false, false, false⟩)
          else if env.autoReplyReady then
            match env.response with
            | none => (st, ⟨true, true, false, false⟩)
            | some _ =>
              if env.sendOk then
                ({ st with
                    processedMessages := key :: st.processedMessages,
                    repliesThisHour := st.repliesThisHour + 1,
                    stats := { st.stats with
                      messagesSent := st.stats.messagesSent + 1,
                      conversationsHandled := st.stats.conversationsHandled + 1 } },
                  ⟨true, true, true, true⟩)
              else (st, ⟨true, true, true, false⟩)
          else
            ({ st with processedMessages := key :: st.processedMessages },
              ⟨true, false, false, false⟩)

/-- The `for (const conv of unread)` loop body of `pollLoop`
(worker.ts 317–323), processing a list of selected conversations
sequentially, each with its oracle record. -/
def processConversations (maxRepliesPerHour : Nat) :
    List (String × ConvEnv) → WorkerState → WorkerState × List ConvEvents
  | [], st => (st, [])
  | (name, env) :: rest, st =>
    let step := handleConversation maxRepliesPerHour name env st
    let tail := processConversations maxRepliesPerHour rest step.1
    (tail.1, step.2 :: tail.2)

/-! ## Theorems -/

/-- C3: Schedule-window gate.  For every runtime configuration and every
current hour and weekday: the check passes when the schedule is disabled;
fails when `skipWeekends` is set and the day is Saturday or Sunday;
otherwise passes iff `start ≤ h < end` when `start ≤ end`, and iff
`h ≥ start ∨ h < end` when `start > end` (overnight wraparound).  In
particular with `enabled = true, start = 22, end = 6` it passes at hours
23 and 2 and fails at hour 12. -/
theorem schedule_window_gate (cfg : ScheduleConfig) (hour day : Int) :
    (cfg.scheduleEnabled = false → isWithinSchedule cfg hour day = true) ∧
    (cfg.scheduleEnabled = true → cfg.skipWeekends = true → (day = 0 ∨ day = 6) →
      isWithinSchedule cfg hour day = false) ∧
    (cfg.scheduleEnabled = true → (cfg.skipWeekends = true → day ≠ 0 ∧ day ≠ 6) →
      cfg.scheduleStart ≤ cfg.scheduleEnd →
      (isWithinSchedule cfg hour day = true ↔
        cfg.scheduleStart ≤ hour ∧ hour < cfg.scheduleEnd)) ∧
    (cfg.scheduleEnabled = true → (cfg.skipWeekends = true → day ≠ 0 ∧ day ≠ 6) →
      cfg.scheduleEnd < cfg.scheduleStart →
      (isWithinSchedule cfg hour day = true ↔
        cfg.scheduleStart ≤ hour ∨ hour < cfg.scheduleEnd)) ∧
    isWithinSchedule ⟨true, 22, 6, false⟩ 23 3 = true ∧
    isWithinSchedule ⟨true, 22, 6, false⟩ 2 3 = true ∧
    isWithinSchedule ⟨true, 22, 6, false⟩ 12 3 = false := by
  refine ⟨?_, ?_, ?_, ?_, by decide, by decide, by decide⟩
  · intro h
    simp [isWithinSchedule, h]
  · intro he hw hd
    rcases hd with hd | hd <;> simp [isWithinSchedule, he, hw, hd]
  · intro he hwd hse
    have hw : (cfg.skipWeekends && (decide (day = 0) || decide (day = 6))) = false := by
      cases hwk : cfg.skipWeekends with
      | false => simp
      | true =>
        obtain ⟨h1, h2⟩ := hwd hwk
        simp [h1, h2]
    simp [isWithinSchedule, he, hw, hse]
  · intro he hwd hse
    have hw : (cfg.skipWeekends && (decide (day = 0) || decide (day = 6))) = false := by
      cases hwk : cfg.skipWeekends with
      | false => simp
      | true =>
        obtain ⟨h1, h2⟩ := hwd hwk
        simp [h1, h2]
    have hns : ¬(cfg.scheduleStart ≤ cfg.scheduleEnd) := by omega
    simp [isWithinSchedule, he, hw, hns]

/-- C3 witness: the wraparound window 22–6 passes at hours 23 and 2 and
fails at hour 12. -/
theorem schedule_window_gate_witness :
    isWithinSchedule ⟨true, 22, 6, false⟩ 23 3 = true ∧
    isWithinSchedule ⟨true, 22, 6, false⟩ 2 3 = true ∧
    isWithinSchedule ⟨true, 22, 6, false⟩ 12 3 = false :=
  ⟨(schedule_window_gate ⟨true, 22, 6, false⟩ 23 3).2.2.2.2.1,
   (schedule_window_gate ⟨true, 22, 6, false⟩ 23 3).2.2.2.2.2.1,
   (schedule_window_gate ⟨true, 22, 6, false⟩ 23 3).2.2.2.2.2.2⟩

/-- C4: Rate-limit window reset.  Whenever `now - lastHourReset` exceeds
3600000 ms (3600 s), the check resets the counter to 0 and the window
start to `now` and then passes iff `0 < max`; otherwise the state is
unchanged and the check passes iff `repliesThisHour < max`.  In
particular, starting from `repliesThisHour = max` with `max ≥ 1`, after
3601 s of elapsed time the next check passes and the counter reads 0. -/
theorem rate_limit_window_reset (maxRepliesPerHour : Nat) (st : RateState) (now : Int) :
    (now - st.lastHourReset > 3600000 →
      (canReplyStep maxRepliesPerHour st now).2 = ⟨0, now⟩ ∧
      ((canReplyStep maxRepliesPerHour st now).1 = true ↔ 0 < maxRepliesPerHour)) ∧
    (¬(now - st.lastHourReset > 3600000) →
      (canReplyStep maxRepliesPerHour st now).2 = st ∧
      ((canReplyStep maxRepliesPerHour st now).1 = true ↔
        st.repliesThisHour < maxRepliesPerHour)) ∧
    (1 ≤ maxRepliesPerHour →
      (canReplyStep maxRepliesPerHour ⟨maxRepliesPerHour, st.lastHourReset⟩
        (st.lastHourReset + 3601000)).1 = true ∧
      (canReplyStep maxRepliesPerHour ⟨maxRepliesPerHour, st.lastHourReset⟩
        (st.lastHourReset + 3601000)).2.repliesThisHour = 0) := by
  refine ⟨?_, ?_, ?_⟩
  · intro h
    simp [canReplyStep, h]
  · intro h
    simp [canReplyStep, h]
  · intro h
    have helapsed : (st.lastHourReset + 3601000) - st.lastHourReset > 3600000 := by omega
    simp [canReplyStep, helapsed]
    omega

/-- C4 witness: with the counter saturated at 30 of 30 and 3601 s of
elapsed time, the next check passes and the counter reads 0. -/
theorem rate_limit_window_reset_witness :
    1 ≤ 30 ∧
    (canReplyStep 30 ⟨30, 0⟩ (0 + 3601000)).1 = true ∧
    (canReplyStep 30 ⟨30, 0⟩ (0 + 3601000)).2.repliesThisHour = 0 :=
  ⟨by decide,
   ((rate_limit_window_reset 30 ⟨30, 0⟩ 0).2.2 (by decide)).1,
   ((rate_limit_window_reset 30 ⟨30, 0⟩ 0).2.2 (by decide)).2⟩

/-- C10: Equal schedule bounds yield an empty window.  With the schedule
enabled and `scheduleStart = scheduleEnd`, the check returns false at
every hour of every day, so the worker never processes conversations
under such a configuration. -/
theorem equal_schedule_bounds_empty_window (cfg : ScheduleConfig) (hour day : Int)
    (hen : cfg.scheduleEnabled = true) (heq : cfg.scheduleStart = cfg.scheduleEnd) :
    isWithinSchedule cfg hour day = false := by
  by_cases hw : (cfg.skipWeekends && (decide (day = 0) || decide (day = 6))) = true
  · simp [isWithinSchedule, hen, hw]
  · have hw2 : (cfg.skipWeekends && (decide (day = 0) || decide (day = 6))) = false := by
      revert hw
      cases cfg.skipWeekends && (decide (day = 0) || decide (day = 6)) <;> simp
    have hse : cfg.scheduleStart ≤ cfg.scheduleEnd := by omega
    simp [isWithinSchedule, hen, hw2, hse]
    omega

/-- C10 witness: a concrete enabled configuration with equal bounds
rejects its own boundary hour. -/
theorem equal_schedule_bounds_empty_window_witness :
    isWithinSchedule ⟨true, 9, 9, false⟩ 9 3 = false :=
  equal_schedule_bounds_empty_window ⟨true, 9, 9, false⟩ 9 3 rfl rfl

/-- C5: Context-window bound and role mapping.  The role-tagged list built
by `getResponse` is exactly one leading system-role entry carrying the
personality, then the last `min 10 |history|` history entries mapped
`isSent → assistant` / `!isSent → user` in order, then one trailing
user-role entry carrying the new message; it never includes more than 10
prior history entries. -/
theorem context_window_bound (personality userMessage : String)
    (conversationHistory : List Message) :
    (buildChatMessages personality userMessage conversationHistory).head? =
      some ⟨Role.system, personality⟩ ∧
    (buildChatMessages personality userMessage conversationHistory).getLast? =
      some ⟨Role.user, userMessage⟩ ∧
    ((buildChatMessages personality userMessage conversationHistory).drop 1).dropLast =
      (lastN MAX_CONTEXT_MESSAGES conversationHistory).map toChatMessage ∧
    (lastN MAX_CONTEXT_MESSAGES conversationHistory).length ≤ 10 ∧
    List.IsSuffix (lastN MAX_CONTEXT_MESSAGES conversationHistory) conversationHistory ∧
    (buildChatMessages personality userMessage conversationHistory).length =
      min 10 conversationHistory.length + 2 := by
  refine ⟨rfl, ?_, ?_, ?_, ?_, ?_⟩
  · show ((({ role := Role.system, content := personality } : ChatMessage) ::
        (lastN MAX_CONTEXT_MESSAGES conversationHistory).map toChatMessage) ++
        [({ role := Role.user, content := userMessage } : ChatMessage)]).getLast? = _
    exact List.getLast?_concat _
  · show ((lastN MAX_CONTEXT_MESSAGES conversationHistory).map toChatMessage ++
        [({ role := Role.user, content := userMessage } : ChatMessage)]).dropLast = _
    exact List.dropLast_concat
  · simp only [lastN, List.length_drop, MAX_CONTEXT_MESSAGES]
    omega
  · exact List.drop_suffix _ _
  · simp only [buildChatMessages, lastN, MAX_CONTEXT_MESSAGES, List.length_cons,
      List.length_append, List.length_map, List.length_drop, List.length_nil]
    omega

/-- C2: Unread-classification precedence.  For every scanned item whose
(trimmed, lowercased) text contains a `delivered` marker, a `sent` marker
without `received`, or an `opened` marker, any conversation the scanner
emits for it has `hasUnread = false`, `isNewChat = false` and
`isNewSnap = false`, regardless of any received/new-chat/new-snap token,
notification badge, or bold font weight also present. -/
theorem unread_precedence (seen : List String) (item : ScanItem) (conv : Conversation)
    (hscan : scanConversationItem seen item = some conv)
    (hmark : hasHandledMarker (jsTrim item.innerText) = true) :
    conv.hasUnread = false ∧ conv.isNewChat = false ∧ conv.isNewSnap = false := by
  rw [scanConversationItem] at hscan
  obtain ⟨np, hnp, hconv⟩ := Option.map_eq_some'.mp hscan
  rw [← hconv]
  simp [classifyItem, hmark]

set_option maxRecDepth 100000 in
/-- C2 witness: an item whose text carries both a `Delivered` marker and a
`Received · 5m` marker — and even a notification badge and a bold first
span — is classified entirely unhandled. -/
theorem unread_precedence_witness :
    scanConversationItem [] ⟨"Bob\nDelivered\nReceived · 5m", true, some 700⟩ =
      some ⟨"Bob", "Delivered Received · 5m", false, false, false⟩ ∧
    hasHandledMarker (jsTrim "Bob\nDelivered\nReceived · 5m") = true ∧
    ((Conversation.mk "Bob" "Delivered Received · 5m" false false false).hasUnread = false ∧
      (Conversation.mk "Bob" "Delivered Received · 5m" false false false).isNewChat = false ∧
      (Conversation.mk "Bob" "Delivered Received · 5m" false false false).isNewSnap = false) :=
  ⟨by decide, by decide,
    unread_precedence [] ⟨"Bob\nDelivered\nReceived · 5m", true, some 700⟩
      ⟨"Bob", "Delivered Received · 5m", false, false, false⟩ (by decide) (by decide)⟩

/-- C7: Conversation filtering.  `filterConversations` keeps exactly the
conversations whose name (case-insensitively) matches no UI-chrome
denylist entry, is at least 3 characters long, and matches no
user-configured ignore-list entry; and the poll loop's unread-processing
set never contains a conversation named "Team Snapchat" under the default
ignore list, regardless of its unread flag. -/
theorem conversation_filtering (ignoreList : List String)
    (conversations : List Conversation) (c : Conversation) :
    (c ∈ filterConversations ignoreList conversations ↔
      c ∈ conversations ∧
      (UI_ELEMENTS.any fun ui => strContains (jsToLower c.name) ui) = false ∧
      ¬(c.name.length < 3) ∧
      (ignoreList.any fun ignore =>
        strContains (jsToLower c.name) (jsToLower ignore)) = false) ∧
    (c.name = "Team Snapchat" → c ∉ pollUnread defaultIgnoreList conversations) := by
  constructor
  · rw [filterConversations, List.mem_filter]
    constructor
    · rintro ⟨hmem, hpred⟩
      refine ⟨hmem, ?_⟩
      revert hpred
      by_cases hui : (UI_ELEMENTS.any fun ui => strContains (jsToLower c.name) ui) = true
      · simp [hui]
      · have hui2 : (UI_ELEMENTS.any fun ui => strContains (jsToLower c.name) ui) = false := by
          revert hui
          cases UI_ELEMENTS.any fun ui => strContains (jsToLower c.name) ui <;> simp
        by_cases hlen : c.name.length < 3
        · simp [hui2, hlen]
        · simp [hui2, hlen]
    · rintro ⟨hmem, hui, hlen, hign⟩
      refine ⟨hmem, ?_⟩
      simp [hui, hlen, hign]
  · intro hname hmem
    rw [pollUnread, List.mem_filter] at hmem
    obtain ⟨hmem1, _⟩ := hmem
    rw [pollFilterIgnore, List.mem_filter] at hmem1
    obtain ⟨_, hpred⟩ := hmem1
    rw [hname] at hpred
    exact absurd hpred (by decide)

/-- C7 witness: a "Team Snapchat" conversation flagged unread is excluded
from the unread-processing set under the default ignore list. -/
theorem conversation_filtering_witness :
    Conversation.mk "Team Snapchat" "hey" true false false ∉
      pollUnread defaultIgnoreList
        [Conversation.mk "Team Snapchat" "hey" true false false] :=
  (conversation_filtering defaultIgnoreList
    [Conversation.mk "Team Snapchat" "hey" true false false]
    (Conversation.mk "Team Snapchat" "hey" true false false)).2 rfl

/-- The text of a scanned message is the trimmed inner text of its node. -/
theorem mkScannedMessage_text (winWidth : Int) (n : MsgNode) :
    (mkScannedMessage winWidth n).text = jsTrim n.innerText := rfl

/-- Every message the scan loop emits comes from a node that passed all
survival guards. -/
theorem mem_getMessagesScan (sys : List String) (winWidth : Int) :
    ∀ (nodes : List MsgNode) (seen : List String) (msg : Message),
      msg ∈ getMessagesScan sys winWidth seen nodes →
      ∃ n, msgNodeKeep sys n = true ∧ msg = mkScannedMessage winWidth n := by
  intro nodes
  induction nodes with
  | nil =>
    intro seen msg h
    simp [getMessagesScan] at h
  | cons n rest ih =>
    intro seen msg h
    rw [getMessagesScan] at h
    by_cases hc : (msgNodeKeep sys n && !seen.contains (jsTrim n.innerText)) = true
    · rw [if_pos hc] at h
      rcases List.mem_cons.mp h with heq | hmem
      · have hc2 := hc
        rw [Bool.and_eq_true] at hc2
        exact ⟨n, hc2.1, heq⟩
      · exact ih _ msg hmem
    · rw [if_neg hc] at h
      exact ih _ msg h

/-- The scan loop emits pairwise-distinct texts, none of which was already
in the `seen` dedup set. -/
theorem getMessagesScan_nodup (sys : List String) (winWidth : Int) :
    ∀ (nodes : List MsgNode) (seen : List String),
      ((getMessagesScan sys winWidth seen nodes).map Message.text).Nodup ∧
      (∀ t ∈ (getMessagesScan sys winWidth seen nodes).map Message.text,
        seen.contains t = false) := by
  intro nodes
  induction nodes with
  | nil =>
    intro seen
    simp [getMessagesScan]
  | cons n rest ih =>
    intro seen
    rw [getMessagesScan]
    by_cases hc : (msgNodeKeep sys n && !seen.contains (jsTrim n.innerText)) = true
    · rw [if_pos hc]
      have hfresh : seen.contains (jsTrim n.innerText) = false := by
        have hc2 := hc
        rw [Bool.and_eq_true] at hc2
        have := hc2.2
        revert this
        cases seen.contains (jsTrim n.innerText) <;> simp
      obtain ⟨ihnodup, ihseen⟩ := ih (jsTrim n.innerText :: seen)
      constructor
      · rw [List.map_cons, mkScannedMessage_text, List.nodup_cons]
        refine ⟨?_, ihnodup⟩
        intro hmem
        have := ihseen _ hmem
        rw [show (jsTrim n.innerText :: seen).contains (jsTrim n.innerText) =
            ((jsTrim n.innerText == jsTrim n.innerText) || seen.contains (jsTrim n.innerText))
          from rfl] at this
        simp at this
      · intro t ht
        rw [List.map_cons, mkScannedMessage_text] at ht
        rcases List.mem_cons.mp ht with heq | hmem
        · rw [heq]
          exact hfresh
        · have := ihseen _ hmem
          rw [show (jsTrim n.innerText :: seen).contains t =
              ((t == jsTrim n.innerText) || seen.contains t) from rfl] at this
          exact (Bool.or_eq_false_iff.mp this).2
    · rw [if_neg hc]
      exact ih seen

/-- C6: Message-scan postcondition.  The message scanner returns at most
10 messages, namely a suffix (of length `min 10 |survivors|`) of the
surviving candidates in DOM encounter order; every returned text has
between 1 and 500 characters, matches no system-string denylist entry and
no timestamp pattern, and the returned texts are pairwise distinct. -/
theorem message_scan_postcondition (winWidth : Int) (nodes : List MsgNode) :
    (getMessages winWidth nodes).length ≤ 10 ∧
    List.IsSuffix (getMessages winWidth nodes)
      (getMessagesScan SYSTEM_MESSAGES winWidth [] nodes) ∧
    (getMessages winWidth nodes).length =
      min 10 (getMessagesScan SYSTEM_MESSAGES winWidth [] nodes).length ∧
    (∀ msg ∈ getMessages winWidth nodes,
      1 ≤ msg.text.length ∧ msg.text.length ≤ 500 ∧
      (SYSTEM_MESSAGES.any fun sys => strContains (jsToLower msg.text) sys) = false ∧
      isRelTimestamp msg.text = false ∧
      jsToLower msg.text ≠ "just now" ∧
      isClockTimestamp msg.text = false) ∧
    ((getMessages winWidth nodes).map Message.text).Nodup := by
  refine ⟨?_, ?_, ?_, ?_, ?_⟩
  · rw [getMessages, lastN, List.length_drop]
    omega
  · exact List.drop_suffix _ _
  · rw [getMessages, lastN, List.length_drop]
    omega
  · intro msg hmsg
    have hsub : msg ∈ getMessagesScan SYSTEM_MESSAGES winWidth [] nodes :=
      (List.drop_sublist _ _).subset hmsg
    obtain ⟨n, hkeep, hmk⟩ := mem_getMessagesScan SYSTEM_MESSAGES winWidth nodes [] msg hsub
    rw [hmk, mkScannedMessage_text]
    simp only [msgNodeKeep, Bool.and_eq_true, Bool.not_eq_true', decide_eq_false_iff_not,
      Bool.not_eq_eq_eq_not, Bool.not_true] at hkeep
    obtain ⟨⟨⟨⟨⟨⟨⟨hne, hlen1⟩, hlen500⟩, hsys⟩, hrel⟩, hjust⟩, hclock⟩, htop⟩ := hkeep
    have hjust2 : jsToLower (jsTrim n.innerText) ≠ "just now" := by
      intro hx
      rw [hx] at hjust
      simp at hjust
    refine ⟨by omega, by omega, hsys, hrel, hjust2, hclock⟩
  · have hnodup := (getMessagesScan_nodup SYSTEM_MESSAGES winWidth nodes []).1
    rw [getMessages, lastN, List.map_drop]
    exact hnodup.sublist (List.drop_sublist _ _)

set_option maxRecDepth 100000 in
/-- C6 witness: a concrete scan keeps a plain message and its text passes
every filter. -/
theorem message_scan_postcondition_witness :
    (getMessages 1000 [⟨"hey there", 200, some 100, "message"⟩]).length ≤ 10 ∧
    (1 ≤ (Message.mk "hey there" false).text.length ∧
      (Message.mk "hey there" false).text.length ≤ 500 ∧
      (SYSTEM_MESSAGES.any fun sys =>
        strContains (jsToLower (Message.mk "hey there" false).text) sys) = false ∧
      isRelTimestamp (Message.mk "hey there" false).text = false ∧
      jsToLower (Message.mk "hey there" false).text ≠ "just now" ∧
      isClockTimestamp (Message.mk "hey there" false).text = false) :=
  ⟨(message_scan_postcondition 1000 [⟨"hey there", 200, some 100, "message"⟩]).1,
   (message_scan_postcondition 1000
      [⟨"hey there", 200, some 100, "message"⟩]).2.2.2.1
     (Message.mk "hey there" false) (by decide)⟩

/-- One handler step either leaves the dedup set unchanged or pushes one
key onto it; keys are never removed. -/
theorem handle_processed_shape (maxRepliesPerHour : Nat) (name : String)
    (env : ConvEnv) (st : WorkerState) :
    (handleConversation maxRepliesPerHour name env st).1.processedMessages =
      st.processedMessages ∨
    ∃ k, (handleConversation maxRepliesPerHour name env st).1.processedMessages =
      k :: st.processedMessages := by
  simp only [handleConversation]
  split
  · left; rfl
  · split
    · left; rfl
    · split
      · left; rfl
      · split
        · left; rfl
        · split
          · right; exact ⟨_, rfl⟩
          · split
            · split
              · left; rfl
              · split
                · right; exact ⟨_, rfl⟩
                · left; rfl
            · right; exact ⟨_, rfl⟩

/-- Dedup-set membership is preserved by one handler step. -/
theorem handle_processed_mono (maxRepliesPerHour : Nat) (name : String)
    (env : ConvEnv) (st : WorkerState) (key : String)
    (h : st.processedMessages.contains key = true) :
    (handleConversation maxRepliesPerHour name env st).1.processedMessages.contains
      key = true := by
  rcases handle_processed_shape maxRepliesPerHour name env st with heq | ⟨k, heq⟩
  · rw [heq]; exact h
  · rw [heq]
    show ((key == k) || st.processedMessages.contains key) = true
    rw [h]
    simp

/-- Dedup-set membership is preserved by processing any further list of
conversations. -/
theorem processConversations_processed_mono (maxRepliesPerHour : Nat) :
    ∀ (convs : List (String × ConvEnv)) (st : WorkerState) (key : String),
      st.processedMessages.contains key = true →
      (processConversations maxRepliesPerHour convs st).1.processedMessages.contains
        key = true := by
  intro convs
  induction convs with
  | nil =>
    intro st key h
    exact h
  | cons p rest ih =>
    intro st key h
    obtain ⟨name, env⟩ := p
    simp only [processConversations]
    exact ih _ key (handle_processed_mono maxRepliesPerHour name env st key h)

/-- A handler step whose conversation's last received message carries an
already-processed dedup key calls neither the generator nor the sender,
sends nothing, and leaves the dedup set unchanged. -/
theorem handle_dedup_hit (maxRepliesPerHour : Nat) (name : String)
    (env : ConvEnv) (st : WorkerState) (m : Message)
    (hlast : (env.messages.filter fun x => !x.isSent).getLast? = some m)
    (hseen : st.processedMessages.contains (messageKey name m.text) = true) :
    (handleConversation maxRepliesPerHour name env st).2.generatorCalled = false ∧
    (handleConversation maxRepliesPerHour name env st).2.senderCalled = false ∧
    (handleConversation maxRepliesPerHour name env st).2.replySent = false ∧
    (handleConversation maxRepliesPerHour name env st).1.processedMessages =
      st.processedMessages := by
  cases hopen : env.opened with
  | false => simp [handleConversation, hopen]
  | true =>
    have hne : env.messages.isEmpty = false := by
      cases hm : env.messages with
      | nil => rw [hm] at hlast; simp at hlast
      | cons a l => simp
    have hmem : messageKey name m.text ∈ st.processedMessages := List.elem_iff.mp hseen
    simp [handleConversation, hopen, hne, hlast, hmem]

/-- A handler step that actually sent a reply has recorded the dedup key
of the conversation's last received message. -/
theorem handle_replySent_key (maxRepliesPerHour : Nat) (name : String)
    (env : ConvEnv) (st : WorkerState) (m : Message)
    (hlast : (env.messages.filter fun x => !x.isSent).getLast? = some m)
    (hrep : (handleConversation maxRepliesPerHour name env st).2.replySent = true) :
    (handleConversation maxRepliesPerHour name env st).1.processedMessages.contains
      (messageKey name m.text) = true := by
  cases hopen : env.opened with
  | false => simp [handleConversation, hopen] at hrep
  | true =>
    have hne : env.messages.isEmpty = false := by
      cases hm : env.messages with
      | nil => rw [hm] at hlast; simp at hlast
      | cons a l => simp
    by_cases hmem : messageKey name m.text ∈ st.processedMessages
    · simp [handleConversation, hopen, hne, hlast, hmem] at hrep
    · cases hck : (canReplyStep maxRepliesPerHour
          ⟨st.repliesThisHour, st.lastHourReset⟩ env.now).1 with
      | false => simp [handleConversation, hopen, hne, hlast, hmem, hck] at hrep
      | true =>
        cases har : env.autoReplyReady with
        | false => simp [handleConversation, hopen, hne, hlast, hmem, hck, har] at hrep
        | true =>
          cases hresp : env.response with
          | none => simp [handleConversation, hopen, hne, hlast, hmem, hck, har, hresp] at hrep
          | some r =>
            cases hsend : env.sendOk with
            | false =>
              simp [handleConversation, hopen, hne, hlast, hmem, hck, har, hresp, hsend] at hrep
            | true =>
              simp [handleConversation, hopen, hne, hlast, hmem, hck, har, hresp, hsend]

/-- C1 counterexample: two presentations of the same
`(conversationName, lastMessageText)` pair — name "Alice", text "hey" —
each invoke the reply generator when the generator returns null on the
first presentation, because the failure path does not record the dedup
key; so "generator invoked at most once across both presentations" is
false on this input. -/
theorem dedup_idempotence_counterexample :
    ¬((handleConversation 30 "Alice"
          ⟨true, [⟨"hey", false⟩], true, none, false, 0⟩
          ⟨[], 0, 0, ⟨0, 0, 0⟩⟩).2.generatorCalled.toNat +
      (handleConversation 30 "Alice"
          ⟨true, [⟨"hey", false⟩], true, none, false, 0⟩
          (handleConversation 30 "Alice"
            ⟨true, [⟨"hey", false⟩], true, none, false, 0⟩
            ⟨[], 0, 0, ⟨0, 0, 0⟩⟩).1).2.generatorCalled.toNat ≤ 1) := by
  decide

/-- C1 (amended): once the key `name + ":" + lastReceivedText` is in the
processed-messages set, a presentation of the same pair invokes neither
the generator nor the sender and leaves the set unchanged; consequently
at most one successful send occurs across two presentations of the same
pair.  (The generator and sender may, however, run on both presentations
when the first presentation's generation returns null or its send fails,
since those paths do not record the key.) -/
theorem dedup_idempotence_amended (max1 max2 : Nat) (name t : String)
    (st : WorkerState) (env1 env2 : ConvEnv) (m1 m2 : Message)
    (hlast1 : (env1.messages.filter fun x => !x.isSent).getLast? = some m1)
    (hm1 : m1.text = t)
    (hlast2 : (env2.messages.filter fun x => !x.isSent).getLast? = some m2)
    (hm2 : m2.text = t) :
    (st.processedMessages.contains (messageKey name t) = true →
      (handleConversation max1 name env1 st).2.generatorCalled = false ∧
      (handleConversation max1 name env1 st).2.senderCalled = false ∧
      (handleConversation max1 name env1 st).1.processedMessages =
        st.processedMessages) ∧
    ¬((handleConversation max1 name env1 st).2.replySent = true ∧
      (handleConversation max2 name env2
        (handleConversation max1 name env1 st).1).2.replySent = true) := by
  constructor
  · intro hseen
    have h := handle_dedup_hit max1 name env1 st m1 hlast1 (by rw [hm1]; exact hseen)
    exact ⟨h.1, h.2.1, h.2.2.2⟩
  · rintro ⟨hrep1, hrep2⟩
    have hkey : (handleConversation max1 name env1 st).1.processedMessages.contains
        (messageKey name t) = true := by
      rw [← hm1]
      exact handle_replySent_key max1 name env1 st m1 hlast1 hrep1
    have h2 := handle_dedup_hit max2 name env2
      (handleConversation max1 name env1 st).1 m2 hlast2 (by rw [hm2]; exact hkey)
    rw [h2.2.2.1] at hrep2
    cases hrep2

/-- C1 witness for the amended theorem: with the key "Alice:hey" already
recorded, a presentation of the same pair does nothing, and two
presentations never both send. -/
theorem dedup_idempotence_amended_witness :
    (WorkerState.mk ["Alice:hey"] 0 0 ⟨0, 0, 0⟩).processedMessages.contains
        (messageKey "Alice" "hey") = true ∧
    (handleConversation 30 "Alice" ⟨true, [⟨"hey", false⟩], true, some "yo", true, 0⟩
        (WorkerState.mk ["Alice:hey"] 0 0 ⟨0, 0, 0⟩)).2.generatorCalled = false ∧
    (handleConversation 30 "Alice" ⟨true, [⟨"hey", false⟩], true, some "yo", true, 0⟩
        (WorkerState.mk ["Alice:hey"] 0 0 ⟨0, 0, 0⟩)).2.senderCalled = false ∧
    (handleConversation 30 "Alice" ⟨true, [⟨"hey", false⟩], true, some "yo", true, 0⟩
        (WorkerState.mk ["Alice:hey"] 0 0 ⟨0, 0, 0⟩)).1.processedMessages =
      (WorkerState.mk ["Alice:hey"] 0 0 ⟨0, 0, 0⟩).processedMessages := by
  refine ⟨by decide, ?_⟩
  have h := (dedup_idempotence_amended 30 30 "Alice" "hey"
    (WorkerState.mk ["Alice:hey"] 0 0 ⟨0, 0, 0⟩)
    ⟨true, [⟨"hey", false⟩], true, some "yo", true, 0⟩
    ⟨true, [⟨"hey", false⟩], true, some "yo", true, 0⟩
    ⟨"hey", false⟩ ⟨"hey", false⟩ (by decide) rfl (by decide) rfl).1 (by decide)
  exact h

/-- C8: Navigator-failure atomicity.  When opening the conversation
returns false, the handler reads no messages, calls neither the generator
nor the sender, leaves the dedup set and rate state unchanged, and hands
control back to the poll loop, which processes the remaining selected
conversations from the resulting state. -/
theorem navigator_failure_atomic (maxRepliesPerHour : Nat) (name : String)
    (env : ConvEnv) (st : WorkerState) (rest : List (String × ConvEnv))
    (hopen : env.opened = false) :
    (handleConversation maxRepliesPerHour name env st).2 =
      ⟨false, false, false, false⟩ ∧
    (handleConversation maxRepliesPerHour name env st).1.processedMessages =
      st.processedMessages ∧
    (handleConversation maxRepliesPerHour name env st).1.repliesThisHour =
      st.repliesThisHour ∧
    (handleConversation maxRepliesPerHour name env st).1.lastHourReset =
      st.lastHourReset ∧
    (processConversations maxRepliesPerHour ((name, env) :: rest) st).1 =
      (processConversations maxRepliesPerHour rest
        (handleConversation maxRepliesPerHour name env st).1).1 ∧
    (processConversations maxRepliesPerHour ((name, env) :: rest) st).2 =
      ConvEvents.mk false false false false ::
        (processConversations maxRepliesPerHour rest
          (handleConversation maxRepliesPerHour name env st).1).2 := by
  have hstep : handleConversation maxRepliesPerHour name env st =
      ({ st with stats :=
          { st.stats with messagesReceived := st.stats.messagesReceived + 1 } },
        ⟨false, false, false, false⟩) := by
    simp [handleConversation, hopen]
  refine ⟨by rw [hstep], by rw [hstep], by rw [hstep], by rw [hstep], ?_, ?_⟩
  · simp only [processConversations]
  · simp only [processConversations, hstep]

/-- C8 witness: a concrete failed open leaves the dedup set untouched and
the loop proceeds to the remaining (empty) list. -/
theorem navigator_failure_atomic_witness :
    (handleConversation 30 "Alice" ⟨false, [⟨"hey", false⟩], true, some "yo", true, 0⟩
        (WorkerState.mk ["k"] 2 5 ⟨1, 1, 1⟩)).2 = ⟨false, false, false, false⟩ ∧
    (handleConversation 30 "Alice" ⟨false, [⟨"hey", false⟩], true, some "yo", true, 0⟩
        (WorkerState.mk ["k"] 2 5 ⟨1, 1, 1⟩)).1.processedMessages = ["k"] :=
  ⟨(navigator_failure_atomic 30 "Alice" ⟨false, [⟨"hey", false⟩], true, some "yo", true, 0⟩
      (WorkerState.mk ["k"] 2 5 ⟨1, 1, 1⟩) [] rfl).1,
   (navigator_failure_atomic 30 "Alice" ⟨false, [⟨"hey", false⟩], true, some "yo", true, 0⟩
      (WorkerState.mk ["k"] 2 5 ⟨1, 1, 1⟩) [] rfl).2.1⟩

/-- C9: Rate-limited messages are dropped forever.  When the dedup check
passes but the rate-limit check fails, the handler records the message's
dedup key without calling the generator or sender; thereafter — no matter
which conversations are processed in between, and with any later clock
value or reply capacity — a presentation of the same pair never invokes
the generator or sender and never sends. -/
theorem rate_limited_dropped_forever (max1 : Nat) (name : String)
    (env : ConvEnv) (st : WorkerState) (m : Message)
    (hopen : env.opened = true)
    (hlast : (env.messages.filter fun x => !x.isSent).getLast? = some m)
    (hnew : ¬(messageKey name m.text ∈ st.processedMessages))
    (hrate : (canReplyStep max1 ⟨st.repliesThisHour, st.lastHourReset⟩ env.now).1 = false) :
    (handleConversation max1 name env st).2.generatorCalled = false ∧
    (handleConversation max1 name env st).2.senderCalled = false ∧
    (handleConversation max1 name env st).1.processedMessages.contains
      (messageKey name m.text) = true ∧
    (∀ (max2 max3 : Nat) (convs : List (String × ConvEnv)) (env2 : ConvEnv) (m2 : Message),
      (env2.messages.filter fun x => !x.isSent).getLast? = some m2 →
      m2.text = m.text →
      (handleConversation max2 name env2
        (processConversations max3 convs
          (handleConversation max1 name env st).1).1).2.generatorCalled = false ∧
      (handleConversation max2 name env2
        (processConversations max3 convs
          (handleConversation max1 name env st).1).1).2.senderCalled = false ∧
      (handleConversation max2 name env2
        (processConversations max3 convs
          (handleConversation max1 name env st).1).1).2.replySent = false) := by
  have hne : env.messages.isEmpty = false := by
    cases hm : env.messages with
    | nil => rw [hm] at hlast; simp at hlast
    | cons a l => simp
  have hmain : (handleConversation max1 name env st).2.generatorCalled = false ∧
      (handleConversation max1 name env st).2.senderCalled = false ∧
      (handleConversation max1 name env st).1.processedMessages.contains
        (messageKey name m.text) = true := by
    simp [handleConversation, hopen, hne, hlast, hnew, hrate]
  refine ⟨hmain.1, hmain.2.1, hmain.2.2, ?_⟩
  intro max2 max3 convs env2 m2 hlast2 hm2
  have hkey : (processConversations max3 convs
      (handleConversation max1 name env st).1).1.processedMessages.contains
        (messageKey name m.text) = true :=
    processConversations_processed_mono max3 convs _ _ hmain.2.2
  have h := handle_dedup_hit max2 name env2
    (processConversations max3 convs (handleConversation max1 name env st).1).1
    m2 hlast2 (by rw [hm2]; exact hkey)
  exact ⟨h.1, h.2.1, h.2.2.1⟩

/-- C9 witness: with the hourly cap already reached (30 of 30, no window
expiry), the message "hey" from "Alice" is marked processed without a
generator call, and a later presentation — after the window has reset and
capacity is available again — still does not reply. -/
theorem rate_limited_dropped_forever_witness :
    (handleConversation 30 "Alice" ⟨true, [⟨"hey", false⟩], true, some "yo", true, 1000⟩
        (WorkerState.mk [] 30 0 ⟨0, 0, 0⟩)).2.generatorCalled = false ∧
    (handleConversation 30 "Alice" ⟨true, [⟨"hey", false⟩], true, some "yo", true, 1000⟩
        (WorkerState.mk [] 30 0 ⟨0, 0, 0⟩)).1.processedMessages.contains
      (messageKey "Alice" "hey") = true ∧
    (handleConversation 30 "Alice"
        ⟨true, [⟨"hey", false⟩], true, some "yo", true, 99999999999⟩
        (processConversations 30 []
          (handleConversation 30 "Alice"
            ⟨true, [⟨"hey", false⟩], true, some "yo", true, 1000⟩
            (WorkerState.mk [] 30 0 ⟨0, 0, 0⟩)).1).1).2.replySent = false := by
  have h := rate_limited_dropped_forever 30 "Alice"
    ⟨true, [⟨"hey", false⟩], true, some "yo", true, 1000⟩
    (WorkerState.mk [] 30 0 ⟨0, 0, 0⟩) ⟨"hey", false⟩
    rfl (by decide) (by decide) (by decide)
  exact ⟨h.1, h.2.2.1,
    (h.2.2.2 30 30 [] ⟨true, [⟨"hey", false⟩], true, some "yo", true, 99999999999⟩
      ⟨"hey", false⟩ (by decide) rfl).2.2⟩

end AutomateSC
